import Mathlib

/-
Verification of the ComfyUI serverless worker (src/serverless_worker.py).

The Python module is embedded shallowly: every network or filesystem effect
is replaced by an explicit environment value (a list of observed outcomes, or
a function from request data to an outcome), and each Python function that a
claim touches becomes a Lean definition over those environments.  The Lean
definitions mirror the Python control flow line by line; time.sleep and log
calls that carry no data are dropped, except where a claim is about the text
of a log line, in which case the text is part of the result.
-/

set_option maxRecDepth 4000

/-! ## Python values

A Python/JSON value as it appears in a job request.  `jnull` is Python None,
`jobj` is a dict with insertion-ordered keys (keys unique, as in a dict). -/

inductive Json where
  | jnull : Json
  | jbool (b : Bool) : Json
  | jnum (n : Int) : Json
  | jstr (s : String) : Json
  | jarr (items : List Json) : Json
  | jobj (entries : List (String × Json)) : Json

/-- Lookup of a key in the entry list of a dict (keys are unique, first
match is the only match). -/
def lookupKey : List (String × Json) → String → Option Json
  | [], _ => none
  | (k, v) :: rest, key => if k = key then some v else lookupKey rest key

/-- dict.get(key): first entry with the given key, none when absent or when
the value is not a dict. -/
def Json.get : Json → String → Option Json
  | .jobj entries, key => lookupKey entries key
  | _, _ => none

/-- key in dict: key membership test. -/
def Json.hasKey (j : Json) (key : String) : Bool :=
  match j with
  | .jobj entries => entries.any fun p => p.1 == key
  | _ => false

/-- isinstance(j, dict) as a Bool. -/
def Json.isObjB : Json → Bool
  | .jobj _ => true
  | _ => false

/-! ## validate_input (src/serverless_worker.py lines 140-182) -/

/-- The validated data returned on success: the workflow dict and the images
list (none when the images key was absent or None). -/
structure Validated where
  workflow : Json
  images : Option Json

/-- One image entry is rejected when it misses the name or image key
(src lines 176-177). -/
def imgMissingKeys (j : Json) : Bool :=
  !(j.hasKey "name") || !(j.hasKey "image")

/-- The for-loop over the images list (src lines 173-177): the first bad
entry determines the error. -/
def validate_images : List Json → Option String
  | [] => none
  | img :: rest =>
    match img with
    | .jobj _ =>
      if imgMissingKeys img then
        some "\x27images\x27 must contain objects with \x27name\x27 and \x27image\x27 keys"
      else validate_images rest
    | _ => some "Each image must be an object"

/-- The body of validate_input after the None/str dispatch (src lines
157-182), applied to the (possibly parsed) job input. -/
def validate_parsed (j : Json) : Except String Validated :=
  match j.get "workflow" with
  | none => .error "Missing \x27workflow\x27 parameter"
  | some .jnull => .error "Missing \x27workflow\x27 parameter"
  | some w =>
    match w with
    | .jobj wes =>
      if wes.isEmpty then .error "\x27workflow\x27 cannot be empty"
      else
        match j.get "images" with
        | none => .ok { workflow := w, images := none }
        | some .jnull => .ok { workflow := w, images := none }
        | some imgs =>
          match imgs with
          | .jarr items =>
            match validate_images items with
            | some e => .error e
            | none => .ok { workflow := w, images := some imgs }
          | _ => .error "\x27images\x27 must be a list"
    | _ => .error "\x27workflow\x27 must be a JSON object"

/-- validate_input (src lines 140-182).  json.loads is the parameter loads:
none models a JSONDecodeError, some j a successful parse producing j. -/
def validate_input (loads : String → Option Json) (job_input : Json) :
    Except String Validated :=
  match job_input with
  | .jnull => .error "Please provide input"
  | .jstr s =>
    match loads s with
    | none => .error "Invalid JSON format in input"
    | some parsed => validate_parsed parsed
  | j => validate_parsed j

/-! ## Handler responses and the validation short-circuit
(src/serverless_worker.py lines 459-473) -/

/-- One collected output artifact: an entry of output_data. -/
structure OutImage where
  filename : String
  type : String
  data : String
deriving DecidableEq, Repr

/-- The dict returned by handler, with every key it may carry. -/
structure HandlerResult where
  images : Option (List OutImage) := none
  errors : Option (List String) := none
  error : Option String := none
  details : Option (List String) := none
  status : Option String := none
deriving DecidableEq, Repr

/-- The validation stage of handler (src lines 471-473).  Everything after a
successful validation is the continuation rest, which returns the final
result together with the list of network calls it performed; the error
branch returns before any network call, so its trace is empty. -/
def handler_start (loads : String → Option Json) (job_input : Json)
    (rest : Validated → HandlerResult × List String) :
    HandlerResult × List String :=
  match validate_input loads job_input with
  | .error e => ({ error := some e }, [])
  | .ok v => rest v

/-- isinstance(j, list) as a Bool. -/
def Json.isArrB : Json → Bool
  | .jarr _ => true
  | _ => false

theorem validate_images_finds_missing :
    ∀ items : List Json, items.all Json.isObjB = true →
      items.any imgMissingKeys = true →
      validate_images items =
        some "\x27images\x27 must contain objects with \x27name\x27 and \x27image\x27 keys" := by
  intro items hall hany
  induction items with
  | nil => simp at hany
  | cons hd tl ih =>
    simp only [List.all_cons, Bool.and_eq_true] at hall
    obtain ⟨hhd, htl⟩ := hall
    cases hd with
    | jnull => simp [Json.isObjB] at hhd
    | jbool b => simp [Json.isObjB] at hhd
    | jnum n => simp [Json.isObjB] at hhd
    | jstr s => simp [Json.isObjB] at hhd
    | jarr its => simp [Json.isObjB] at hhd
    | jobj entries =>
      by_cases hmiss : imgMissingKeys (Json.jobj entries) = true
      · simp [validate_images, hmiss]
      · have hmiss' : imgMissingKeys (Json.jobj entries) = false := by
          simpa using hmiss
        simp only [List.any_cons, hmiss', Bool.false_or] at hany
        simp [validate_images, hmiss', ih htl hany]


/-- C8: for every malformed job input (missing workflow, workflow not an
object, empty workflow, images not a list, or an image entry missing the
required name/image keys), validate_input returns an error message and the
handler returns that error with an empty network-call trace. -/
theorem validate_input_rejects_malformed :
    (∀ loads es, lookupKey es "workflow" = none →
      validate_input loads (Json.jobj es) =
        Except.error "Missing \x27workflow\x27 parameter")
  ∧ (∀ loads es w, lookupKey es "workflow" = some w →
      w.isObjB = false → w ≠ Json.jnull →
      validate_input loads (Json.jobj es) =
        Except.error "\x27workflow\x27 must be a JSON object")
  ∧ (∀ loads es, lookupKey es "workflow" = some (Json.jobj []) →
      validate_input loads (Json.jobj es) =
        Except.error "\x27workflow\x27 cannot be empty")
  ∧ (∀ loads es wes v, lookupKey es "workflow" = some (Json.jobj wes) →
      wes.isEmpty = false → lookupKey es "images" = some v →
      v.isArrB = false → v ≠ Json.jnull →
      validate_input loads (Json.jobj es) =
        Except.error "\x27images\x27 must be a list")
  ∧ (∀ loads es wes items, lookupKey es "workflow" = some (Json.jobj wes) →
      wes.isEmpty = false → lookupKey es "images" = some (Json.jarr items) →
      items.all Json.isObjB = true → items.any imgMissingKeys = true →
      validate_input loads (Json.jobj es) =
        Except.error
          "\x27images\x27 must contain objects with \x27name\x27 and \x27image\x27 keys")
  ∧ (∀ loads j e rest, validate_input loads j = Except.error e →
      handler_start loads j rest = ({ error := some e }, [])) := by
  refine ⟨?_, ?_, ?_, ?_, ?_, ?_⟩
  · intro loads es h
    simp [validate_input, validate_parsed, Json.get, h]
  · intro loads es w h hobj hnull
    cases w with
    | jnull => exact absurd rfl hnull
    | jobj wes => simp [Json.isObjB] at hobj
    | jbool b => simp [validate_input, validate_parsed, Json.get, h]
    | jnum n => simp [validate_input, validate_parsed, Json.get, h]
    | jstr s => simp [validate_input, validate_parsed, Json.get, h]
    | jarr its => simp [validate_input, validate_parsed, Json.get, h]
  · intro loads es h
    simp [validate_input, validate_parsed, Json.get, h]
  · intro loads es wes v hw hne hi harr hnull
    cases v with
    | jnull => exact absurd rfl hnull
    | jarr its => simp [Json.isArrB] at harr
    | jobj ves => simp [validate_input, validate_parsed, Json.get, hw, hne, hi]
    | jbool b => simp [validate_input, validate_parsed, Json.get, hw, hne, hi]
    | jnum n => simp [validate_input, validate_parsed, Json.get, hw, hne, hi]
    | jstr s => simp [validate_input, validate_parsed, Json.get, hw, hne, hi]
  · intro loads es wes items hw hne hi hall hany
    simp [validate_input, validate_parsed, Json.get, hw, hne, hi,
      validate_images_finds_missing items hall hany]
  · intro loads j e rest h
    simp [handler_start, h]

/-- C8 witness: each malformed-input class exercised at a concrete input. -/
theorem validate_input_rejects_malformed_witness :
    (validate_input (fun _ => none) (Json.jobj []) =
      Except.error "Missing \x27workflow\x27 parameter")
  ∧ (validate_input (fun _ => none)
      (Json.jobj [("workflow", Json.jnum 5)]) =
      Except.error "\x27workflow\x27 must be a JSON object")
  ∧ (validate_input (fun _ => none)
      (Json.jobj [("workflow", Json.jobj [])]) =
      Except.error "\x27workflow\x27 cannot be empty")
  ∧ (validate_input (fun _ => none)
      (Json.jobj [("workflow", Json.jobj [("1", Json.jnull)]),
                  ("images", Json.jnum 3)]) =
      Except.error "\x27images\x27 must be a list")
  ∧ (validate_input (fun _ => none)
      (Json.jobj [("workflow", Json.jobj [("1", Json.jnull)]),
                  ("images", Json.jarr [Json.jobj [("name", Json.jstr "a")]])]) =
      Except.error
        "\x27images\x27 must contain objects with \x27name\x27 and \x27image\x27 keys")
  ∧ (handler_start (fun _ => none) Json.jnull
      (fun _ => ({ error := none }, ["POST /prompt"])) =
      ({ error := some "Please provide input" }, [])) := by
  refine ⟨?_, ?_, ?_, ?_, ?_, ?_⟩
  · exact validate_input_rejects_malformed.1 _ _ rfl
  · exact validate_input_rejects_malformed.2.1 _ _ _ rfl rfl
      (fun h => Json.noConfusion h)
  · exact validate_input_rejects_malformed.2.2.1 _ _ rfl
  · exact validate_input_rejects_malformed.2.2.2.1 _ _ [("1", Json.jnull)] _
      rfl rfl rfl rfl (fun h => Json.noConfusion h)
  · exact validate_input_rejects_malformed.2.2.2.2.1 _ _ [("1", Json.jnull)] _
      rfl rfl rfl rfl rfl
  · exact validate_input_rejects_malformed.2.2.2.2.2 _ _ _ _ rfl

/-- A concrete json.loads oracle used to exercise the string-input branch. -/
def loadsDemo : String → Option Json :=
  fun s => if s = "ok" then some (Json.jobj []) else none

/-- C10: a string job input is parsed with json.loads and the parsed object
is validated exactly like a directly supplied object; a string that fails to
parse yields the error Invalid JSON format in input. -/
theorem validate_input_string_parse :
    (∀ loads s es, loads s = some (Json.jobj es) →
      validate_input loads (Json.jstr s) = validate_input loads (Json.jobj es))
  ∧ (∀ loads s, loads s = none →
      validate_input loads (Json.jstr s) =
        Except.error "Invalid JSON format in input") := by
  constructor
  · intro loads s es h
    simp [validate_input, h]
  · intro loads s h
    simp [validate_input, h]

/-- C10 witness: the string branch at a concrete parse success and a
concrete parse failure. -/
theorem validate_input_string_parse_witness :
    (validate_input loadsDemo (Json.jstr "ok") =
      validate_input loadsDemo (Json.jobj []))
  ∧ (validate_input loadsDemo (Json.jstr "bad") =
      Except.error "Invalid JSON format in input") := by
  constructor
  · exact validate_input_string_parse.1 loadsDemo "ok" [] rfl
  · exact validate_input_string_parse.2 loadsDemo "bad" rfl

/-! ## check_server (src/serverless_worker.py lines 77-105)

The environment supplies one outcome per attempt: the HTTP status of a
response, a requests.Timeout, or another requests.RequestException. -/

inductive ProbeOutcome where
  | ok (status : Nat) : ProbeOutcome
  | timeout : ProbeOutcome
  | transportError : ProbeOutcome
deriving DecidableEq, Repr

/-- The success test of one attempt (src line 94): the status code must be
exactly 200; any exception falls through to the next attempt. -/
def probeSuccess : ProbeOutcome → Bool
  | .ok s => s == 200
  | .timeout => false
  | .transportError => false

/-- check_server (src lines 91-105): one list entry per attempt, the retry
budget is the list length; returns true at the first successful attempt and
false when the attempts are exhausted. -/
def check_server : List ProbeOutcome → Bool
  | [] => false
  | o :: rest => if probeSuccess o then true else check_server rest

/-- C4 counterexample: an attempt that yields HTTP 204 - a 200-class status -
is not treated as success; the prober exhausts its budget and returns false,
while the claim says any 2xx response makes it return true. -/
theorem check_server_2xx_counterexample :
    check_server [ProbeOutcome.ok 204] = false ∧ 200 ≤ 204 ∧ 204 < 300 := by
  decide

/-- C4 amended: an attempt is a success exactly when its response has status
exactly 200; the prober returns true iff some attempt within the budget
yields status 200 (other 200-class statuses count as failed attempts). -/
theorem check_server_success_iff_exact_200 :
    ∀ outcomes : List ProbeOutcome,
      check_server outcomes = true ↔ ProbeOutcome.ok 200 ∈ outcomes := by
  intro outcomes
  induction outcomes with
  | nil => simp [check_server]
  | cons o rest ih =>
    cases o with
    | ok s =>
      by_cases hs : s = 200
      · subst hs
        simp [check_server, probeSuccess]
      · have h200 : (200 : Nat) ≠ s := fun h => hs h.symm
        simp [check_server, probeSuccess, hs, ih, h200]
    | timeout => simp [check_server, probeSuccess, ih]
    | transportError => simp [check_server, probeSuccess, ih]

/-! ## queue_workflow, 400-response branch (src/serverless_worker.py
lines 269-296)

The parsed JSON body of the 400 response is given by its two relevant
members: the error member and the node_errors mapping.  Leaf message values
are taken as the strings the f-strings render them to. -/

/-- The error member of the body: a dict with an optional message, or a
non-dict value rendered by str(). -/
inductive ErrField where
  | edict (message : Option String) : ErrField
  | eother (rendered : String) : ErrField
deriving DecidableEq, Repr

/-- One value of the node_errors mapping: a dict of error_type to message,
or a non-dict value rendered by the f-string. -/
inductive NodeErr where
  | dictErr (entries : List (String × String)) : NodeErr
  | plainErr (rendered : String) : NodeErr
deriving DecidableEq, Repr

/-- True when the node_errors value is a dict. -/
def NodeErr.isDict : NodeErr → Bool
  | .dictErr _ => true
  | .plainErr _ => false

/-- The top-level message (src lines 273-280): the message member of a dict
error, str() of a non-dict error, or the default when absent. -/
def queue_workflow_top_msg : Option ErrField → String
  | none => "Workflow validation failed"
  | some (.edict message) => message.getD "Workflow validation failed"
  | some (.eother v) => v

/-- The detail lines for one node (src lines 285-290): one line per
error_type entry of a dict value, one line for a non-dict value. -/
def nodeErrLines (node_id : String) : NodeErr → List String
  | .dictErr entries =>
      entries.map fun (error_type, msg) => s!"Node {node_id} ({error_type}): {msg}"
  | .plainErr v => [s!"Node {node_id}: {v}"]

/-- The details list accumulated over node_errors in iteration order
(src lines 284-290). -/
def queue_workflow_details (node_errors : List (String × NodeErr)) : List String :=
  node_errors.flatMap fun (node_id, node_error) => nodeErrLines node_id node_error

/-- The ValueError message raised for a JSON 400 body (src lines 272-294):
the top-level message, extended with one bullet line per detail when any
details were gathered. -/
def queue_workflow_error_msg (err : Option ErrField)
    (node_errors : Option (List (String × NodeErr))) : String :=
  let m := queue_workflow_top_msg err
  match node_errors with
  | none => m
  | some nes =>
    let details := queue_workflow_details nes
    if details.isEmpty then m
    else m ++ ":\n" ++ String.intercalate "\n" (details.map fun d => s!"• {d}")

/-- The (node, error_type, message) pairs of a node_errors mapping in
encounter order, following the words of the spec. -/
def specNodeErrorPairs (node_errors : List (String × NodeErr)) :
    List (String × String × String) :=
  node_errors.flatMap fun (node_id, node_error) =>
    match node_error with
    | .dictErr entries => entries.map fun (error_type, msg) => (node_id, error_type, msg)
    | .plainErr _ => []

/-- The line the spec promises for one (node, error_type, message) triple. -/
def specPairLine : String × String × String → String
  | (node_id, error_type, msg) => s!"Node {node_id} ({error_type}): {msg}"

theorem nodeErrLines_dict : ∀ (node_id : String) (entries : List (String × String)),
    nodeErrLines node_id (NodeErr.dictErr entries)
      = (entries.map fun (error_type, msg) => (node_id, error_type, msg)).map specPairLine := by
  intro node_id entries
  induction entries with
  | nil => rfl
  | cons e tl ih =>
    obtain ⟨et, m⟩ := e
    simp only [nodeErrLines, List.map_cons] at ih ⊢
    rw [ih]
    rfl

theorem queue_workflow_details_eq_pairs :
    ∀ nes : List (String × NodeErr), (nes.all fun p => p.2.isDict) = true →
      queue_workflow_details nes = (specNodeErrorPairs nes).map specPairLine := by
  intro nes h
  induction nes with
  | nil => rfl
  | cons hd tl ih =>
    obtain ⟨node_id, node_error⟩ := hd
    simp only [List.all_cons, Bool.and_eq_true] at h
    obtain ⟨hhd, htl⟩ := h
    cases node_error with
    | plainErr v => simp [NodeErr.isDict] at hhd
    | dictErr entries =>
      simp only [queue_workflow_details, specNodeErrorPairs, List.flatMap_cons,
        List.map_append] at ih ⊢
      rw [ih htl]
      congr 1
      exact nodeErrLines_dict node_id entries

/-- C7: for a 400 response whose JSON body carries a node_errors mapping of
node-id to dicts of error_type to message, the raised detail string contains
exactly one line per (node, error_type) pair, in encounter order, and the
whole detail is the top-level message concatenated with one bullet line per
pair. -/
theorem queue_workflow_node_error_lines :
    ∀ (err : Option ErrField) (nes : List (String × NodeErr)),
      (nes.all fun p => p.2.isDict) = true →
      queue_workflow_details nes = (specNodeErrorPairs nes).map specPairLine
      ∧ queue_workflow_error_msg err (some nes) =
          (if (specNodeErrorPairs nes).isEmpty then queue_workflow_top_msg err
           else queue_workflow_top_msg err ++ ":\n"
             ++ String.intercalate "\n"
               (((specNodeErrorPairs nes).map specPairLine).map
                 fun d => s!"• {d}")) := by
  intro err nes h
  have hd := queue_workflow_details_eq_pairs nes h
  refine ⟨hd, ?_⟩
  have hmape : ∀ (l : List (String × String × String)),
      (l.map specPairLine).isEmpty = l.isEmpty := by
    intro l
    cases l <;> rfl
  simp only [queue_workflow_error_msg, hd, hmape]

/-- C7 witness: a concrete 400 body with two nodes and three
(node, error_type) pairs. -/
theorem queue_workflow_node_error_lines_witness :
    queue_workflow_details
      [("3", NodeErr.dictErr [("required_input_missing", "i1"),
                              ("bad_type", "i2")]),
       ("7", NodeErr.dictErr [("value_not_in_list", "x")])] =
      (specNodeErrorPairs
        [("3", NodeErr.dictErr [("required_input_missing", "i1"),
                                ("bad_type", "i2")]),
         ("7", NodeErr.dictErr [("value_not_in_list", "x")])]).map specPairLine
    ∧ queue_workflow_error_msg (some (ErrField.edict (some "Invalid prompt")))
        (some [("3", NodeErr.dictErr [("required_input_missing", "i1"),
                                      ("bad_type", "i2")]),
               ("7", NodeErr.dictErr [("value_not_in_list", "x")])]) =
      (if (specNodeErrorPairs
            [("3", NodeErr.dictErr [("required_input_missing", "i1"),
                                    ("bad_type", "i2")]),
             ("7", NodeErr.dictErr [("value_not_in_list", "x")])]).isEmpty
       then queue_workflow_top_msg
              (some (ErrField.edict (some "Invalid prompt")))
       else queue_workflow_top_msg
              (some (ErrField.edict (some "Invalid prompt"))) ++ ":\n"
         ++ String.intercalate "\n"
           (((specNodeErrorPairs
               [("3", NodeErr.dictErr [("required_input_missing", "i1"),
                                       ("bad_type", "i2")]),
                ("7", NodeErr.dictErr [("value_not_in_list", "x")])]).map
              specPairLine).map fun d => s!"• {d}")) :=
  queue_workflow_node_error_lines
    (some (ErrField.edict (some "Invalid prompt")))
    [("3", NodeErr.dictErr [("required_input_missing", "i1"),
                            ("bad_type", "i2")]),
     ("7", NodeErr.dictErr [("value_not_in_list", "x")])] rfl

/-! ## process_with_websocket (src/serverless_worker.py lines 332-412)

The environment is the list of outcomes the channel delivers to ws.recv, in
order.  A message outcome carries the parsed JSON shape the loop inspects; a
closed outcome carries, per reconnection attempt the loop might make, whether
the connect call of that attempt succeeds. -/

/-- Python str(None) or the string itself, as an f-string renders an
optional field taken from data.get. -/
def pyOptStr (o : Option String) : String := o.getD "None"

/-- A parsed message as dispatched on its type member (src lines 358-382).
Fields are the values of data.get, none when absent. -/
inductive WsMsg where
  | status : WsMsg
  | executing (node : Option String) (prompt_id : Option String) : WsMsg
  | executionError (prompt_id : Option String)
      (node_type node_id exception_message : Option String) : WsMsg
  | other : WsMsg
deriving DecidableEq, Repr

/-- One outcome of ws.recv (src lines 355, 384, 387, 403): a text message, a
non-text frame, a text frame that is not valid JSON, a receive timeout, or a
connection-closed signal whose list gives the success of each reconnection
attempt the loop may make. -/
inductive WsEvent where
  | recvMsg (m : WsMsg) : WsEvent
  | recvBytes : WsEvent
  | recvInvalidJson : WsEvent
  | recvTimeout : WsEvent
  | closed (attemptConnects : List Bool) : WsEvent
deriving DecidableEq, Repr

/-- How the reconnection loop ends (src lines 390-401): a successful
reconnect breaks out, a failure on the last attempt re-raises, and a zero
budget falls through with no attempt made. -/
inductive Reconn where
  | ok : Reconn
  | raise : Reconn
  | fellThrough : Reconn
deriving DecidableEq, Repr

/-- The for-loop over attempt indices (src lines 390-401): attempt i
reconnects when its connect succeeds; a failing attempt re-raises exactly
when it is the last one (attempt == n - 1). -/
def reconnectFrom (results : List Bool) (n : Nat) : List Nat → Reconn
  | [] => .fellThrough
  | i :: rest =>
    if results.getD i false then .ok
    else if i = n - 1 then .raise
    else reconnectFrom results n rest

/-- The whole reconnection loop with budget n (src line 390:
for attempt in range(n)). -/
def reconnectRun (n : Nat) (results : List Bool) : Reconn :=
  reconnectFrom results n (List.range n)

/-- The error line appended on an execution_error message
(src lines 375-381). -/
def wsExecErrorLine (node_type node_id exception_message : Option String) :
    String :=
  s!"Workflow execution error: Node Type: {pyOptStr node_type}, Node ID: {pyOptStr node_id}, Message: {pyOptStr exception_message}"

/-- How a run of the monitor ends: a normal return of
(execution_done, errors), an exception escaping the function, or the event
list exhausted with the loop still waiting. -/
inductive WsOutcome where
  | returned (execution_done : Bool) (errors : List String) : WsOutcome
  | raised : WsOutcome
  | pending : WsOutcome
deriving DecidableEq, Repr

/-- The while-True receive loop (src lines 353-405) over the remaining
events, carrying the errors accumulated so far. -/
def wsLoop (n : Nat) (prompt_id : String) :
    List WsEvent → List String → WsOutcome
  | [], _ => .pending
  | e :: rest, errors =>
    match e with
    | .recvMsg m =>
      match m with
      | .status => wsLoop n prompt_id rest errors
      | .executing node pid =>
        if node = none ∧ pid = some prompt_id then .returned true errors
        else wsLoop n prompt_id rest errors
      | .executionError pid nt ni em =>
        if pid = some prompt_id then
          .returned false (errors ++ [wsExecErrorLine nt ni em])
        else wsLoop n prompt_id rest errors
      | .other => wsLoop n prompt_id rest errors
    | .recvBytes => wsLoop n prompt_id rest errors
    | .recvInvalidJson => wsLoop n prompt_id rest errors
    | .recvTimeout => wsLoop n prompt_id rest errors
    | .closed results =>
      match reconnectRun n results with
      | .raise => .raised
      | .ok => wsLoop n prompt_id rest errors
      | .fellThrough => wsLoop n prompt_id rest errors

/-- process_with_websocket (src lines 332-412) with reconnection budget n
(WEBSOCKET_RECONNECT_ATTEMPTS) over a delivered event sequence: the receive
loop started with an empty error list. -/
def process_with_websocket (n : Nat) (prompt_id : String)
    (events : List WsEvent) : WsOutcome :=
  wsLoop n prompt_id events []

/-- An event that neither terminates the loop for this prompt_id nor
re-raises out of the reconnection loop. -/
def wsBenign (n : Nat) (prompt_id : String) : WsEvent → Bool
  | .recvMsg .status => true
  | .recvMsg (.executing node pid) =>
    !(node == none && pid == some prompt_id)
  | .recvMsg (.executionError pid _ _ _) => !(pid == some prompt_id)
  | .recvMsg .other => true
  | .recvBytes => true
  | .recvInvalidJson => true
  | .recvTimeout => true
  | .closed results =>
    match reconnectRun n results with
    | .raise => false
    | _ => true

theorem wsLoop_benign_step (n : Nat) (prompt_id : String) (e : WsEvent)
    (es : List WsEvent) (errors : List String)
    (hb : wsBenign n prompt_id e = true) :
    wsLoop n prompt_id (e :: es) errors = wsLoop n prompt_id es errors := by
  cases e with
  | recvMsg m =>
    cases m with
    | status => rfl
    | executing node pid =>
      simp only [wsBenign, Bool.not_eq_eq_eq_not, Bool.not_true,
        Bool.and_eq_false_imp] at hb
      simp only [wsLoop]
      rw [if_neg]
      intro ⟨h1, h2⟩
      subst h1 h2
      simp at hb
    | executionError pid nt ni em =>
      simp only [wsBenign] at hb
      simp only [wsLoop]
      rw [if_neg]
      intro h1
      subst h1
      simp at hb
    | other => rfl
  | recvBytes => rfl
  | recvInvalidJson => rfl
  | recvTimeout => rfl
  | closed results =>
    simp only [wsBenign] at hb
    simp only [wsLoop]
    cases hr : reconnectRun n results with
    | ok => rfl
    | fellThrough => rfl
    | raise => rw [hr] at hb; simp at hb

theorem wsLoop_benign_prefix (n : Nat) (prompt_id : String)
    (pre es : List WsEvent) (errors : List String)
    (hb : ∀ e ∈ pre, wsBenign n prompt_id e = true) :
    wsLoop n prompt_id (pre ++ es) errors = wsLoop n prompt_id es errors := by
  induction pre with
  | nil => rfl
  | cons e tl ih =>
    rw [List.cons_append,
      wsLoop_benign_step n prompt_id e (tl ++ es) errors
        (hb e (List.mem_cons_self e tl)),
      ih (fun x hx => hb x (List.mem_cons_of_mem e hx))]

/-- C5: a delivered sequence of otherwise benign messages ending in an
executing message with node null and the matching prompt_id returns
(true, []); one ending in an execution_error for the matching prompt_id
returns (false, non-empty errors); and a status message or a message whose
prompt_id differs from the handle leaves the monitor state unchanged. -/
theorem process_with_websocket_terminal_and_noise :
    (∀ n prompt_id pre, (∀ e ∈ pre, wsBenign n prompt_id e = true) →
      process_with_websocket n prompt_id
        (pre ++ [WsEvent.recvMsg (WsMsg.executing none (some prompt_id))]) =
        WsOutcome.returned true [])
  ∧ (∀ n prompt_id pre nt ni em,
      (∀ e ∈ pre, wsBenign n prompt_id e = true) →
      process_with_websocket n prompt_id
        (pre ++ [WsEvent.recvMsg
          (WsMsg.executionError (some prompt_id) nt ni em)]) =
        WsOutcome.returned false [wsExecErrorLine nt ni em]
      ∧ [wsExecErrorLine nt ni em] ≠ [])
  ∧ (∀ n prompt_id errors es,
      wsLoop n prompt_id (WsEvent.recvMsg WsMsg.status :: es) errors =
        wsLoop n prompt_id es errors)
  ∧ (∀ n prompt_id errors es node pid, pid ≠ some prompt_id →
      wsLoop n prompt_id
        (WsEvent.recvMsg (WsMsg.executing node pid) :: es) errors =
        wsLoop n prompt_id es errors)
  ∧ (∀ n prompt_id errors es pid nt ni em, pid ≠ some prompt_id →
      wsLoop n prompt_id
        (WsEvent.recvMsg (WsMsg.executionError pid nt ni em) :: es) errors =
        wsLoop n prompt_id es errors) := by
  refine ⟨?_, ?_, ?_, ?_, ?_⟩
  · intro n prompt_id pre hb
    rw [process_with_websocket, wsLoop_benign_prefix n prompt_id pre _ [] hb]
    simp [wsLoop]
  · intro n prompt_id pre nt ni em hb
    rw [process_with_websocket, wsLoop_benign_prefix n prompt_id pre _ [] hb]
    exact ⟨by simp [wsLoop], by simp⟩
  · intro n prompt_id errors es
    rfl
  · intro n prompt_id errors es node pid hpid
    simp only [wsLoop]
    rw [if_neg]
    intro ⟨_, h2⟩
    exact hpid h2
  · intro n prompt_id errors es pid nt ni em hpid
    simp only [wsLoop]
    rw [if_neg hpid]

/-- C5 witness: a noisy benign prelude followed by each terminal message,
and the no-state-change equations at concrete noise messages. -/
theorem process_with_websocket_terminal_and_noise_witness :
    (process_with_websocket 5 "p"
      [WsEvent.recvMsg WsMsg.status,
       WsEvent.recvMsg (WsMsg.executing (some "4") (some "p")),
       WsEvent.recvMsg (WsMsg.executing none (some "q")),
       WsEvent.recvTimeout,
       WsEvent.recvMsg (WsMsg.executing none (some "p"))] =
      WsOutcome.returned true [])
  ∧ (process_with_websocket 5 "p"
      [WsEvent.recvMsg WsMsg.status,
       WsEvent.recvMsg
         (WsMsg.executionError (some "p") (some "KSampler") (some "3")
           (some "boom"))] =
      WsOutcome.returned false
        [wsExecErrorLine (some "KSampler") (some "3") (some "boom")]
      ∧ [wsExecErrorLine (some "KSampler") (some "3") (some "boom")] ≠ [])
  ∧ (wsLoop 5 "p" [WsEvent.recvMsg WsMsg.status] ["e0"] =
      wsLoop 5 "p" [] ["e0"])
  ∧ (wsLoop 5 "p"
      [WsEvent.recvMsg (WsMsg.executing none (some "q"))] ["e0"] =
      wsLoop 5 "p" [] ["e0"])
  ∧ (wsLoop 5 "p"
      [WsEvent.recvMsg
        (WsMsg.executionError (some "q") none none none)] ["e0"] =
      wsLoop 5 "p" [] ["e0"]) := by
  refine ⟨?_, ?_, ?_, ?_, ?_⟩
  · exact process_with_websocket_terminal_and_noise.1 5 "p"
      [WsEvent.recvMsg WsMsg.status,
       WsEvent.recvMsg (WsMsg.executing (some "4") (some "p")),
       WsEvent.recvMsg (WsMsg.executing none (some "q")),
       WsEvent.recvTimeout] (by decide)
  · exact process_with_websocket_terminal_and_noise.2.1 5 "p"
      [WsEvent.recvMsg WsMsg.status] (some "KSampler") (some "3")
      (some "boom") (by decide)
  · exact process_with_websocket_terminal_and_noise.2.2.1 5 "p" ["e0"] []
  · exact process_with_websocket_terminal_and_noise.2.2.2.1 5 "p" ["e0"] []
      none (some "q") (by decide)
  · exact process_with_websocket_terminal_and_noise.2.2.2.2 5 "p" ["e0"] []
      (some "q") none none none (by decide)

theorem wsLoop_return_invariant : ∀ (n : Nat) (prompt_id : String)
    (events : List WsEvent) (errors0 : List String) (d : Bool)
    (res : List String),
    wsLoop n prompt_id events errors0 = WsOutcome.returned d res →
    (d = true ∧ res = errors0) ∨ (d = false ∧ ∃ l, res = errors0 ++ [l]) := by
  intro n prompt_id events
  induction events with
  | nil =>
    intro errors0 d res h
    simp [wsLoop] at h
  | cons e rest ih =>
    intro errors0 d res h
    cases e with
    | recvMsg m =>
      cases m with
      | status => exact ih errors0 d res h
      | executing node pid =>
        by_cases hc : node = none ∧ pid = some prompt_id
        · simp only [wsLoop, if_pos hc, WsOutcome.returned.injEq] at h
          exact Or.inl ⟨h.1.symm, h.2.symm⟩
        · simp only [wsLoop, if_neg hc] at h
          exact ih errors0 d res h
      | executionError pid nt ni em =>
        by_cases hc : pid = some prompt_id
        · simp only [wsLoop, if_pos hc, WsOutcome.returned.injEq] at h
          exact Or.inr ⟨h.1.symm, ⟨wsExecErrorLine nt ni em, h.2.symm⟩⟩
        · simp only [wsLoop, if_neg hc] at h
          exact ih errors0 d res h
      | other => exact ih errors0 d res h
    | recvBytes => exact ih errors0 d res h
    | recvInvalidJson => exact ih errors0 d res h
    | recvTimeout => exact ih errors0 d res h
    | closed results =>
      cases hr : reconnectRun n results with
      | raise =>
        simp only [wsLoop, hr] at h
        exact WsOutcome.noConfusion h
      | ok =>
        simp only [wsLoop, hr] at h
        exact ih errors0 d res h
      | fellThrough =>
        simp only [wsLoop, hr] at h
        exact ih errors0 d res h

/-- C9: every normal return of the websocket monitor is either
(true, empty errors) or (false, non-empty errors); the pair
(false, empty errors) is never produced by a normal return. -/
theorem process_with_websocket_return_contract :
    ∀ (n : Nat) (prompt_id : String) (events : List WsEvent) (d : Bool)
      (errors : List String),
      process_with_websocket n prompt_id events = WsOutcome.returned d errors →
      (d = true ∧ errors = []) ∨ (d = false ∧ errors ≠ []) := by
  intro n prompt_id events d errors h
  rcases wsLoop_return_invariant n prompt_id events [] d errors h with
    ⟨h1, h2⟩ | ⟨h1, l, h2⟩
  · exact Or.inl ⟨h1, h2⟩
  · exact Or.inr ⟨h1, by simp [h2]⟩

/-- C9 witness: the contract evaluated at a concrete completing run. -/
theorem process_with_websocket_return_contract_witness :
    (true = true ∧ ([] : List String) = [])
    ∨ (true = false ∧ ([] : List String) ≠ []) :=
  process_with_websocket_return_contract 5 "p"
    [WsEvent.recvMsg (WsMsg.executing none (some "p"))] true [] (by decide)

theorem reconnect_all_fail : ∀ (results : List Bool) (n m s : Nat),
    1 ≤ m → s + m = n → (∀ i, i < n → results.getD i false = false) →
    reconnectFrom results n (List.range' s m) = Reconn.raise := by
  intro results n m
  induction m with
  | zero =>
    intro s h1
    exact absurd h1 (by omega)
  | succ m ih =>
    intro s h1 h2 hf
    rw [List.range'_succ]
    simp only [reconnectFrom, hf s (by omega), Bool.false_eq_true, if_false]
    cases Nat.eq_zero_or_pos m with
    | inl hm0 =>
      subst hm0
      have hs : s = n - 1 := by omega
      simp [hs]
    | inr hmpos =>
      have hs : ¬ s = n - 1 := by omega
      rw [if_neg hs]
      exact ih (s + 1) (by omega) (by omega) hf

theorem reconnectRun_all_fail (n : Nat) (results : List Bool) (h1 : 1 ≤ n)
    (hf : ∀ i, i < n → results.getD i false = false) :
    reconnectRun n results = Reconn.raise := by
  rw [reconnectRun, List.range_eq_range']
  exact reconnect_all_fail results n n 0 h1 (by omega) hf

/-- C1 counterexample: with the default budget of five reconnection attempts
all failing, the monitor raises out of process_with_websocket; it does not
return any (done, errors) pair, while the claim says it returns a
ChannelFailure outcome as its (done, errors) result rather than raising. -/
theorem websocket_reconnect_exhaustion_counterexample :
    process_with_websocket 5 "p" [WsEvent.closed []] = WsOutcome.raised
    ∧ ¬ ∃ d errors, process_with_websocket 5 "p" [WsEvent.closed []] =
        WsOutcome.returned d errors := by
  have hr : process_with_websocket 5 "p" [WsEvent.closed []] =
      WsOutcome.raised := by decide
  refine ⟨hr, ?_⟩
  rintro ⟨d, errors, h⟩
  rw [hr] at h
  exact WsOutcome.noConfusion h

/-- C1 amended: when a channel-closed signal occurs and all n configured
reconnection attempts fail (n at least one), the re-raised connect error
escapes process_with_websocket - the monitor raises instead of returning a
(done, errors) result; the orchestrator above it catches the exception and
turns it into an error response. -/
theorem websocket_raises_on_reconnect_exhaustion :
    ∀ (n : Nat) (prompt_id : String) (pre : List WsEvent)
      (results : List Bool) (rest : List WsEvent), 1 ≤ n →
      (∀ e ∈ pre, wsBenign n prompt_id e = true) →
      (∀ i, i < n → results.getD i false = false) →
      process_with_websocket n prompt_id
        (pre ++ WsEvent.closed results :: rest) = WsOutcome.raised := by
  intro n prompt_id pre results rest h1 hb hf
  rw [process_with_websocket, wsLoop_benign_prefix n prompt_id pre _ [] hb]
  simp [wsLoop, reconnectRun_all_fail n results h1 hf]

/-- C1 witness: one benign status message, then a closure whose five
reconnection attempts all fail. -/
theorem websocket_raises_on_reconnect_exhaustion_witness :
    process_with_websocket 5 "p"
      [WsEvent.recvMsg WsMsg.status,
       WsEvent.closed [false, false, false, false, false]] =
      WsOutcome.raised :=
  websocket_raises_on_reconnect_exhaustion 5 "p"
    [WsEvent.recvMsg WsMsg.status] [false, false, false, false, false] []
    (by decide) (by decide) (by decide)

/-! ## process_with_polling (src/serverless_worker.py lines 415-452)

One PollObs per loop iteration; the 1-second sleep makes the iteration count
equal to the timeout in seconds (fetch time is not modelled), so a run over
timeout iterations stands for a run of approximately timeout seconds. -/

/-- Whether the characters of needle occur contiguously in hay: the Python
test needle in hay on strings. -/
def containsSeq (hay needle : List Char) : Bool :=
  if needle.isPrefixOf hay then true
  else
    match hay with
    | [] => false
    | _ :: t => containsSeq t needle

/-- Python substring containment on String. -/
def strContainsSub (hay needle : String) : Bool :=
  containsSeq hay.toList needle.toList

/-- One iteration of the polling loop as observed from the engine: either
some fetch raised (src line 446), or a snapshot of the pending and running
lists together with whether the history lookup would contain the prompt. -/
inductive PollObs where
  | fetchError : PollObs
  | snapshot (queue_pending queue_running : List String)
      (historyHasPrompt : Bool) : PollObs
deriving DecidableEq, Repr

/-- The in-queue test (src line 437): the prompt_id occurs as a substring of
the textual form of some item of the two lists. -/
def pollInQueue (prompt_id : String)
    (queue_pending queue_running : List String) : Bool :=
  (queue_pending ++ queue_running).any fun item => strContainsSub item prompt_id

/-- Whether one iteration returns (src lines 439-444): the prompt is absent
from both lists and present in the history. -/
def pollResolves (prompt_id : String) : PollObs → Bool
  | .fetchError => false
  | .snapshot p r h => !pollInQueue prompt_id p r && h

/-- The timeout error message (src line 451). -/
def pollTimeoutMsg (timeout : Nat) : String :=
  s!"Workflow execution timed out after {timeout} seconds"

/-- The polling loop over the iterations the wall clock allows (src lines
428-452): return (true, []) at the first resolving iteration, else fall out
of the loop and return (false, [timeout message]). -/
def pollGo (prompt_id : String) (timeout : Nat) :
    List PollObs → Bool × List String
  | [] => (false, [pollTimeoutMsg timeout])
  | o :: rest =>
    if pollResolves prompt_id o then (true, [])
    else pollGo prompt_id timeout rest

/-- process_with_polling (src lines 415-452): the loop runs one iteration
per elapsed second until the timeout. -/
def process_with_polling (prompt_id : String) (timeout : Nat)
    (obs : Nat → PollObs) : Bool × List String :=
  pollGo prompt_id timeout ((List.range timeout).map obs)

theorem pollGo_of_resolving (prompt_id : String) (timeout : Nat) :
    ∀ l : List PollObs, (l.any fun o => pollResolves prompt_id o) = true →
      pollGo prompt_id timeout l = (true, []) := by
  intro l h
  induction l with
  | nil => simp at h
  | cons o rest ih =>
    by_cases ho : pollResolves prompt_id o = true
    · simp [pollGo, ho]
    · have ho' : pollResolves prompt_id o = false := by simpa using ho
      simp only [List.any_cons, ho', Bool.false_or] at h
      simp [pollGo, ho', ih h]

theorem pollGo_of_never_resolving (prompt_id : String) (timeout : Nat) :
    ∀ l : List PollObs, (∀ o ∈ l, pollResolves prompt_id o = false) →
      pollGo prompt_id timeout l = (false, [pollTimeoutMsg timeout]) := by
  intro l h
  induction l with
  | nil => rfl
  | cons o rest ih =>
    have ho := h o (List.mem_cons_self o rest)
    simp [pollGo, ho,
      ih (fun x hx => h x (List.mem_cons_of_mem o hx))]

/-- C6: if within the timeout some iteration observes the prompt absent from
both the pending and the running list and present in the completed history,
the poll monitor returns (true, []); if no iteration ever resolves, it
returns (false, [timeout message]) once the timeout is exhausted. -/
theorem process_with_polling_outcomes :
    ∀ (prompt_id : String) (timeout : Nat) (obs : Nat → PollObs),
      ((∃ i, i < timeout ∧ pollResolves prompt_id (obs i) = true) →
        process_with_polling prompt_id timeout obs = (true, []))
      ∧ ((∀ i, pollResolves prompt_id (obs i) = false) →
        process_with_polling prompt_id timeout obs =
          (false, [pollTimeoutMsg timeout])) := by
  intro prompt_id timeout obs
  constructor
  · intro ⟨i, hi, hres⟩
    apply pollGo_of_resolving
    rw [List.any_eq_true]
    exact ⟨obs i, List.mem_map_of_mem obs (List.mem_range.mpr hi), hres⟩
  · intro hnever
    apply pollGo_of_never_resolving
    intro o ho
    rw [List.mem_map] at ho
    obtain ⟨i, _, rfl⟩ := ho
    exact hnever i

/-- C6 witness: a run that resolves at the second iteration, and a run that
never resolves within a three-second timeout. -/
theorem process_with_polling_outcomes_witness :
    process_with_polling "p" 3
      (fun i => if i = 1 then PollObs.snapshot [] [] true
                else PollObs.snapshot ["queued p here"] [] false) =
      (true, [])
    ∧ process_with_polling "p" 3 (fun _ => PollObs.fetchError) =
      (false, [pollTimeoutMsg 3]) := by
  constructor
  · exact (process_with_polling_outcomes "p" 3
      (fun i => if i = 1 then PollObs.snapshot [] [] true
                else PollObs.snapshot ["queued p here"] [] false)).1
      ⟨1, by decide, by decide⟩
  · exact (process_with_polling_outcomes "p" 3
      (fun _ => PollObs.fetchError)).2 (fun i => rfl)

/-! ## Result collection and the final response
(src/serverless_worker.py lines 540-640)

The environment supplies the outcome of each effectful step: the bytes the
/view fetch returns (none on failure), the temp path the tempfile module
chooses, and the outcome of the S3 upload and of the base64 encode.  The
scratch-file write itself is modelled as succeeding; the upload step may
raise, which is the failure mode the S3 branch catches. -/

/-- Python truthiness of an optional string (empty and absent are falsy). -/
def pyTruthy : Option String → Bool
  | none => false
  | some s => !s.isEmpty

/-- One entry of a node's images list: the fields read via image_info.get
(src lines 554-556); subfolder defaults to the empty string. -/
structure ImageInfo where
  filename : Option String
  subfolder : String
  type : Option String
deriving DecidableEq, Repr

/-- One node's manifest entry: its images list when the images key is
present (src line 552). -/
structure NodeOutput where
  images : Option (List ImageInfo)
deriving DecidableEq, Repr

/-- The environments of the collection pass. -/
structure CollectEnv where
  bucketEndpoint : Option String
  fetchImage : String → String → Option String → Option String
  tempPathFor : String → String
  s3Upload : String → String → Except String String
  b64Encode : String → Except String String

/-- What the S3 branch did for one artifact (src lines 570-591): whether the
scratch file was written and whether it was removed, the output entry and
error appended, and the log line emitted. -/
structure S3StepResult where
  wrotePath : Option String
  removedPath : Option String
  output : Option OutImage
  errorAppended : Option String
  logLine : Option String
deriving DecidableEq, Repr

/-- The S3 branch for one artifact (src lines 572-591): write the bytes to a
scratch file, upload it, remove the scratch file, and record the external
URL; an exception from the upload step jumps to the handler that logs and
records the failure - the removal after the upload call is skipped. -/
def s3_upload_step (filename temp_path : String)
    (upload_outcome : Except String String) : S3StepResult :=
  match upload_outcome with
  | .ok url =>
    { wrotePath := some temp_path
      removedPath := some temp_path
      output := some { filename := filename, type := "s3_url", data := url }
      errorAppended := none
      logLine := some s!"Uploaded {filename} to S3" }
  | .error e =>
    { wrotePath := some temp_path
      removedPath := none
      output := none
      errorAppended := some s!"S3 upload failed: {e}"
      logLine := some s!"S3 upload failed for {filename}: {e}" }

/-- The body of the inner collection loop for one image entry (src lines
553-606): skip temp artifacts, record a per-node error for a missing
filename, fetch the bytes, then upload or inline-encode; every failure is
appended to the error list and the pass continues. -/
def collectImage (env : CollectEnv) (job_id node_id : String)
    (info : ImageInfo) : List OutImage × List String :=
  if info.type = some "temp" then ([], [])
  else if !pyTruthy info.filename then
    ([], [s!"Missing filename in node {node_id}"])
  else
    let filename := info.filename.getD ""
    let image_bytes := env.fetchImage filename info.subfolder info.type
    if pyTruthy image_bytes then
      match env.bucketEndpoint with
      | some _ =>
        let r := s3_upload_step filename (env.tempPathFor filename)
          (env.s3Upload job_id (env.tempPathFor filename))
        (r.output.toList, r.errorAppended.toList)
      | none =>
        match env.b64Encode (image_bytes.getD "") with
        | .ok b64 =>
          ([{ filename := filename, type := "base64", data := b64 }], [])
        | .error e => ([], [s!"Base64 encoding failed: {e}"])
    else ([], [s!"Failed to fetch image data for {filename}"])

/-- Concatenation of per-artifact contributions in traversal order. -/
def pairAppend (a b : List OutImage × List String) :
    List OutImage × List String :=
  (a.1 ++ b.1, a.2 ++ b.2)

/-- The inner loop over one node's images (src lines 552-553). -/
def collectNodeImages (env : CollectEnv) (job_id node_id : String) :
    List ImageInfo → List OutImage × List String
  | [] => ([], [])
  | info :: rest =>
    pairAppend (collectImage env job_id node_id info)
      (collectNodeImages env job_id node_id rest)

/-- One node of the outputs mapping (src lines 551-552): nothing is
collected when the node has no images key. -/
def collectNode (env : CollectEnv) (job_id : String)
    (node : String × NodeOutput) : List OutImage × List String :=
  match node.2.images with
  | none => ([], [])
  | some infos => collectNodeImages env job_id node.1 infos

/-- The whole collection loop over the outputs mapping (src lines 551-606),
accumulating output_data and the collection errors in iteration order. -/
def collectLoop (env : CollectEnv) (job_id : String) :
    List (String × NodeOutput) → List OutImage × List String
  | [] => ([], [])
  | node :: rest =>
    pairAppend (collectNode env job_id node) (collectLoop env job_id rest)

/-- The final result assembly (src lines 621-640). -/
def buildFinal (output_data : List OutImage) (errors : List String) :
    HandlerResult :=
  let r0 : HandlerResult := {}
  let r1 := if output_data.isEmpty then r0
            else { r0 with images := some output_data }
  let r2 := if errors.isEmpty then r1 else { r1 with errors := some errors }
  if output_data.isEmpty && !errors.isEmpty then
    { error := some "Job processing failed", details := some errors }
  else if output_data.isEmpty && errors.isEmpty then
    { r2 with status := some "success_no_images", images := some [] }
  else r2

/-- The tail of handler from the fetched outputs mapping to the response
(src lines 543-640): the no-outputs guard, the collection pass, and the
final result assembly.  priorErrors are the errors accrued before
collection (from monitoring). -/
def handler_collect (env : CollectEnv) (job_id : String)
    (outputs : List (String × NodeOutput)) (priorErrors : List String) :
    HandlerResult :=
  let errors0 :=
    if outputs.isEmpty && priorErrors.isEmpty then
      priorErrors ++ ["Workflow produced no outputs"]
    else priorErrors
  let c := collectLoop env job_id outputs
  buildFinal c.1 (errors0 ++ c.2)

/-- C3 counterexample: at a concrete failing upload the scratch file is
written but not removed, and the only log line emitted reports the upload
failure without mentioning the scratch file - so neither the guaranteed
removal nor a leak-documenting log line holds. -/
theorem s3_scratch_leak_counterexample :
    (s3_upload_step "img.png" "/tmp/tmp123.png"
      (Except.error "boom")).wrotePath = some "/tmp/tmp123.png"
    ∧ (s3_upload_step "img.png" "/tmp/tmp123.png"
      (Except.error "boom")).removedPath = none
    ∧ (s3_upload_step "img.png" "/tmp/tmp123.png"
      (Except.error "boom")).logLine =
        some "S3 upload failed for img.png: boom"
    ∧ strContainsSub "S3 upload failed for img.png: boom"
        "/tmp/tmp123.png" = false := by
  refine ⟨rfl, rfl, rfl, ?_⟩
  decide

/-- C3 amended: the scratch file is removed only when the upload succeeds;
when the upload step raises, the removal is skipped (the scratch file
leaks) and the log line emitted reports the upload failure, not the leaked
file. -/
theorem s3_upload_step_cleanup :
    ∀ (filename temp_path url e : String),
      ((s3_upload_step filename temp_path (Except.ok url)).removedPath =
        some temp_path)
      ∧ ((s3_upload_step filename temp_path (Except.error e)).removedPath =
          none
        ∧ (s3_upload_step filename temp_path (Except.error e)).logLine =
          some s!"S3 upload failed for {filename}: {e}") := by
  intro filename temp_path url e
  exact ⟨rfl, rfl, rfl⟩

/-- A collection environment for concrete runs: no external bucket, every
fetch fails, base64 encoding is the identity. -/
def envNoOp : CollectEnv :=
  { bucketEndpoint := none
    fetchImage := fun _ _ _ => none
    tempPathFor := fun _ => "/tmp/t"
    s3Upload := fun _ _ => Except.error "no bucket"
    b64Encode := fun b => Except.ok b }

/-- C2 counterexample: with an empty outputs mapping and no prior errors the
collection pass contributes zero artifacts and zero errors, yet the handler
records the error Workflow produced no outputs and returns an error
response, not the success_no_images success response the claim promises for
this case. -/
theorem empty_outputs_error_counterexample :
    collectLoop envNoOp "job-1" [] = ([], [])
    ∧ handler_collect envNoOp "job-1" [] [] =
      { error := some "Job processing failed"
        details := some ["Workflow produced no outputs"] } := by
  exact ⟨rfl, rfl⟩

/-- C2 amended: when the outputs mapping is non-empty, no prior errors
accrued, and the collection pass appends zero artifacts and zero errors,
the response is the distinct success variant with status success_no_images
and an empty images list; when the outputs mapping is empty the handler
instead records the error Workflow produced no outputs and returns an error
response. -/
theorem handler_collect_success_no_images :
    (∀ (env : CollectEnv) (job_id : String)
      (outputs : List (String × NodeOutput)),
      outputs ≠ [] →
      collectLoop env job_id outputs = ([], []) →
      handler_collect env job_id outputs [] =
        { images := some [], status := some "success_no_images" })
    ∧ (∀ (env : CollectEnv) (job_id : String),
      handler_collect env job_id [] [] =
        { error := some "Job processing failed"
          details := some ["Workflow produced no outputs"] }) := by
  constructor
  · intro env job_id outputs hne hc
    have hoe : outputs.isEmpty = false := by
      cases outputs with
      | nil => exact absurd rfl hne
      | cons a b => rfl
    simp [handler_collect, hoe, hc, buildFinal]
  · intro env job_id
    rfl

/-- C2 witness: a non-empty outputs mapping whose single node carries no
images key, so collection contributes nothing. -/
theorem handler_collect_success_no_images_witness :
    handler_collect envNoOp "job-1" [("9", { images := none })] [] =
      { images := some [], status := some "success_no_images" } :=
  handler_collect_success_no_images.1 envNoOp "job-1"
    [("9", { images := none })] (List.cons_ne_nil _ _) rfl
